import Mathlib

/-!
Shallow embedding of `src/http/sink.hpp` (Melown/libhttp).

The header defines the content-emission abstraction: `SinkBase` with its
value types `FileInfo` and `DataSource`, plus the refinements `ServerSink`
(listings, abort detection) and `ClientSink` (`notModified`).  The public
convenience functions are inline in the header and forward to pure-virtual
`*_impl` primitives; we model a call to a primitive as a value of an
inductive `SinkCall` type, so each public function becomes a pure Lean
function returning the primitive invocation it performs.
-/

namespace Http

/-- Abstract memory address of a buffer (`const void *` / `data()` pointer). -/
abbrev Ptr := Nat

/-- Exception values that flow through the error channel.  `error.hpp` is the
header that declares the concrete exception classes; the sink header only
constructs `NotModified("Not Modified")` and documents `RequestAborted`. -/
inductive Exc where
  | notModified (msg : String)
  | requestAborted (msg : String)
  | other (tag : String)
deriving DecidableEq, Repr

/-- `std::exception_ptr`: a type-erased handle holding an exception value. -/
structure ExceptionPtr where
  payload : Exc
deriving DecidableEq, Repr

/-- `std::make_exception_ptr(exc)`: wrap a typed exception value into the
type-erased `exception_ptr`. -/
def makeExceptionPtr (e : Exc) : ExceptionPtr := ⟨e⟩

/-- Whether an exception value is of the `NotModified` class. -/
def Exc.isNotModified : Exc → Bool
  | .notModified _ => true
  | _ => false

namespace SinkBase

/-- `SinkBase::FileInfo` (sink.hpp lines 23-42): content type plus the two
cache timestamps.  `std::time_t` is modelled as `Int`; `-1` is the
"now" sentinel for `lastModified` and the "never" sentinel for `expires`. -/
structure FileInfo where
  contentType : String
  lastModified : Int
  expires : Int
deriving DecidableEq, Repr

/-- The `FileInfo` constructor with all three default arguments applied
(`contentType = "application/octet-stream"`, `lastModified = -1`,
`expires = -1`), sink.hpp lines 36-41. -/
def FileInfo.ctorDefault : FileInfo :=
  { contentType := "application/octet-stream", lastModified := -1, expires := -1 }

/-- The `FileInfo` constructor with explicit arguments, sink.hpp lines 36-41. -/
def FileInfo.ctor (contentType : String) (lastModified : Int) (expires : Int) :
    FileInfo :=
  { contentType := contentType, lastModified := lastModified, expires := expires }

/-- One invocation of a `SinkBase` pure-virtual primitive
(`content_impl`, `error_impl`, `seeOther_impl`; sink.hpp lines 114-117). -/
inductive SinkCall where
  | content_impl (data : Ptr) (size : Nat) (stat : FileInfo) (needCopy : Bool)
  | error_impl (exc : ExceptionPtr)
  | seeOther_impl (url : String)
deriving DecidableEq

/-- A `std::string` as seen by the content path: its `data()` pointer and
its `size()` in bytes. -/
structure CppString where
  dataPtr : Ptr
  size : Nat

/-- A `std::vector<T>` as seen by the content path: its `data()` pointer and
its element count `size()`; the element width `sizeof(T)` is passed
separately where needed. -/
structure CppVector where
  dataPtr : Ptr
  size : Nat

/-- `SinkBase::content(const std::string&, const FileInfo&)`,
sink.hpp lines 190-193: forwards the string's bytes, its byte count and
`needCopy = true` to `content_impl`. -/
def contentString (data : CppString) (stat : FileInfo) : SinkCall :=
  .content_impl data.dataPtr data.size stat true

/-- `SinkBase::content(const std::vector<T>&, const FileInfo&)`,
sink.hpp lines 201-205: forwards the vector's bytes,
`data.size() * sizeof(T)` bytes and `needCopy = true` to `content_impl`.
`sizeofT` is `sizeof(T)` for the instantiated element type. -/
def contentVector (sizeofT : Nat) (data : CppVector) (stat : FileInfo) : SinkCall :=
  .content_impl data.dataPtr (data.size * sizeofT) stat true

/-- `SinkBase::content(const void*, std::size_t, const FileInfo&, bool)`,
sink.hpp lines 195-199: forwards all four arguments unchanged. -/
def contentRaw (data : Ptr) (size : Nat) (stat : FileInfo) (needCopy : Bool) :
    SinkCall :=
  .content_impl data size stat needCopy

/-- `SinkBase::error(const std::exception_ptr&)`, sink.hpp lines 217-220. -/
def errorPtr (exc : ExceptionPtr) : SinkCall :=
  .error_impl exc

/-- `template <typename T> SinkBase::error(const T&)`,
sink.hpp lines 222-224: wraps the typed value via `make_exception_ptr`. -/
def error (exc : Exc) : SinkCall :=
  .error_impl (makeExceptionPtr exc)

/-- `SinkBase::seeOther(const std::string&)`, sink.hpp lines 212-215. -/
def seeOther (url : String) : SinkCall :=
  .seeOther_impl url

end SinkBase

namespace ClientSink

/-- `ClientSink::notModified_impl` default implementation,
sink.hpp lines 241-243: `error(NotModified("Not Modified"))`. -/
def notModified_impl : SinkBase.SinkCall :=
  SinkBase.error (.notModified "Not Modified")

/-- `ClientSink::notModified`, sink.hpp line 239: dispatches to
`notModified_impl` (here: the non-overridden default). -/
def notModified : SinkBase.SinkCall :=
  notModified_impl

end ClientSink

namespace ServerSink

/-- `ServerSink::ListingItem::Type` (sink.hpp line 128): `enum class
Type { dir, file }`, so the underlying values are `dir = 0`, `file = 1`. -/
inductive LType where
  | dir
  | file
deriving DecidableEq, Repr

/-- Underlying integral value of the `enum class`, used by `operator<`. -/
def LType.toNat : LType → Nat
  | .dir => 0
  | .file => 1

/-- `ServerSink::ListingItem` (sink.hpp lines 127-138). -/
structure ListingItem where
  name : String
  type : LType
deriving DecidableEq, Repr

/-- The `ListingItem` constructor with both default arguments applied
(`name = ""`, `type = Type::file`), sink.hpp lines 133-135. -/
def ListingItem.ctorDefault : ListingItem :=
  { name := "", type := .file }

/-- `ServerSink::ListingItem::operator<` (sink.hpp lines 232-237):
compare the enum values first, then the names lexicographically
(`std::string::operator<` is lexicographic on the character sequence,
modelled as `List.lt` on the string's character list, which is the
relation underlying Lean's `String` order). -/
def ListingItem.lt (a o : ListingItem) : Bool :=
  if a.type.toNat < o.type.toNat then true
  else if o.type.toNat < a.type.toNat then false
  else decide (a.name.data < o.name.data)

/-- Insert into a list sorted by `ListingItem.lt` (used to state the
"sorting by this order" consequence of the comparator). -/
def insertByLt (x : ListingItem) : List ListingItem → List ListingItem
  | [] => [x]
  | y :: ys => if ListingItem.lt x y then x :: y :: ys else y :: insertByLt x ys

/-- Insertion sort by `ListingItem.lt`. -/
def sortByLt : List ListingItem → List ListingItem
  | [] => []
  | x :: xs => insertByLt x (sortByLt xs)

/-- Modelled from the spec: `ServerSink::checkAborted` is declared in
sink.hpp (lines 148-151) but its body lives in a source file outside
`src/`; only the pure-virtual poll `checkAborted_impl() -> bool`
(line 169) and the doc comment "Throws RequestAborted exception when
true" are visible.  The model polls the transport's aborted flag and
raises `RequestAborted` exactly when it is set, otherwise returns
normally. -/
def checkAborted (abortedFlagged : Bool) : Except Exc Unit :=
  if abortedFlagged then .error (.requestAborted "Request Aborted")
  else .ok ()

end ServerSink

/-- `SinkBase::DataSource` (sink.hpp lines 44-73): the base class stores
the producer-declared `hasContentLength_` flag, fixed by the constructor;
the polymorphic operations act on derived-class state, modelled as an
abstract component `σ` with the virtuals as explicit function fields.
`read` is the only non-const operation, so it is the only one that may
produce a new state. -/
structure DataSource (σ : Type) where
  hasContentLength_ : Bool
  state : σ
  statFn : σ → SinkBase.FileInfo
  readFn : σ → Nat → Nat → Nat × σ
  nameFn : σ → String
  sizeFn : σ → Int

/-- `DataSource::DataSource(bool hasContentLength)` (sink.hpp lines 48-50)
with the argument given explicitly. -/
def DataSource.ctor (σ : Type) (hasContentLength : Bool) (state : σ)
    (statFn : σ → SinkBase.FileInfo) (readFn : σ → Nat → Nat → Nat × σ)
    (nameFn : σ → String) (sizeFn : σ → Int) : DataSource σ :=
  ⟨hasContentLength, state, statFn, readFn, nameFn, sizeFn⟩

/-- `DataSource::DataSource()` with the `hasContentLength` argument left to
its default, which sink.hpp line 48 declares as `true`. -/
def DataSource.ctorDefault (σ : Type) (state : σ) (statFn : σ → SinkBase.FileInfo)
    (readFn : σ → Nat → Nat → Nat × σ) (nameFn : σ → String)
    (sizeFn : σ → Int) : DataSource σ :=
  DataSource.ctor σ true state statFn readFn nameFn sizeFn

/-- `DataSource::hasContentLength()` (sink.hpp line 69). -/
def DataSource.hasContentLength {σ : Type} (d : DataSource σ) : Bool :=
  d.hasContentLength_

/-- `DataSource::stat()` — const, returns metadata only. -/
def DataSource.stat {σ : Type} (d : DataSource σ) : SinkBase.FileInfo :=
  d.statFn d.state

/-- `DataSource::read(buf, size, off)` — the one non-const operation:
returns the byte count and the data source with its producer state
advanced. -/
def DataSource.read {σ : Type} (d : DataSource σ) (size off : Nat) :
    Nat × DataSource σ :=
  let r := d.readFn d.state size off
  (r.1, { d with state := r.2 })

/-- `DataSource::name()` — const, diagnostic only. -/
def DataSource.name {σ : Type} (d : DataSource σ) : String :=
  d.nameFn d.state

/-- `DataSource::size()` — const; `>= 0` exact length, `< 0` unknown. -/
def DataSource.size {σ : Type} (d : DataSource σ) : Int :=
  d.sizeFn d.state

namespace Exchange

/-- A terminal operation requested on a sink bound to one exchange. -/
inductive TermOp where
  | content (data : Ptr) (size : Nat) (stat : SinkBase.FileInfo) (needCopy : Bool)
  | error (exc : ExceptionPtr)
  | seeOther (url : String)
deriving DecidableEq

/-- The primitive invocation a terminal operation performs when it runs. -/
def TermOp.toCall : TermOp → SinkBase.SinkCall
  | .content data size stat needCopy => .content_impl data size stat needCopy
  | .error exc => .error_impl exc
  | .seeOther url => .seeOther_impl url

/-- State of one sink/exchange binding: whether a terminal operation has
already committed a response on the transport. -/
structure ExchangeState where
  committed : Bool
deriving DecidableEq

/-- The exchange state of a freshly constructed sink: nothing committed. -/
def fresh : ExchangeState := ⟨false⟩

/-- Modelled from the spec: sink.hpp (lines 75-118) only declares the
terminal operations; the enforcement that a second terminal operation on
the same exchange is rejected lives in the sink implementations outside
`src/`.  Per the spec, exactly one of {content, error, seeOther} may be
invoked per exchange: invoking a terminal operation on a fresh exchange
commits the response and emits the primitive call, and invoking one after
the transport has already committed a response fails loudly. -/
def applyTerminal (s : ExchangeState) (op : TermOp) :
    Except String (ExchangeState × SinkBase.SinkCall) :=
  if s.committed then .error "terminal operation on committed exchange"
  else .ok (⟨true⟩, op.toCall)

/-- Run a sequence of terminal operations, collecting the primitive calls
of the ones that succeed (failed attempts are rejected and emit nothing). -/
def run (s : ExchangeState) : List TermOp → List SinkBase.SinkCall
  | [] => []
  | op :: ops =>
      match applyTerminal s op with
      | .ok (s', c) => c :: run s' ops
      | .error _ => run s ops

end Exchange

/-! Theorems -/

/-- Helper: once the exchange has committed a response, no terminal
operation emits a primitive call any more. -/
theorem Exchange.run_committed_nil (ops : List Exchange.TermOp) :
    Exchange.run ⟨true⟩ ops = [] := by
  induction ops with
  | nil => rfl
  | cons op ops ih => simpa [Exchange.run, Exchange.applyTerminal] using ih

/-- C1: `ListingItem::operator<` puts every directory-kind entry strictly
before every file-kind entry, orders entries of the same kind
lexicographically by name, and consequently sorting
`[(file,"b"), (dir,"a"), (dir,"z"), (file,"a")]` by this order yields
`[(dir,"a"), (dir,"z"), (file,"a"), (file,"b")]`. -/
theorem listingItem_order_spec :
    (∀ a b : ServerSink.ListingItem, a.type = .dir → b.type = .file →
      ServerSink.ListingItem.lt a b = true ∧ ServerSink.ListingItem.lt b a = false) ∧
    (∀ a b : ServerSink.ListingItem, a.type = b.type →
      (ServerSink.ListingItem.lt a b = true ↔ a.name < b.name)) ∧
    ServerSink.sortByLt
        [⟨"b", .file⟩, ⟨"a", .dir⟩, ⟨"z", .dir⟩, ⟨"a", .file⟩] =
      [⟨"a", .dir⟩, ⟨"z", .dir⟩, ⟨"a", .file⟩, ⟨"b", .file⟩] := by
  refine ⟨?_, ?_, by decide⟩
  · intro a b ha hb
    simp [ServerSink.ListingItem.lt, ServerSink.LType.toNat, ha, hb]
  · intro a b hab
    simp [ServerSink.ListingItem.lt, ServerSink.LType.toNat, hab,
      String.lt_iff_toList_lt, String.toList]

/-- C1 witness: the order facts at a concrete directory/file pair. -/
theorem listingItem_order_spec_witness :
    ServerSink.ListingItem.lt ⟨"x", .dir⟩ ⟨"a", .file⟩ = true :=
  (listingItem_order_spec.1 ⟨"x", .dir⟩ ⟨"a", .file⟩ rfl rfl).1

/-- C2: the non-overridden `notModified()` invokes the same type-erased
error primitive as `error(NotModified("Not Modified"))`, with a
`NotModified` exception value as its payload. -/
theorem notModified_equiv_error :
    ClientSink.notModified = SinkBase.error (.notModified "Not Modified") ∧
    ClientSink.notModified =
      .error_impl (makeExceptionPtr (.notModified "Not Modified")) ∧
    (makeExceptionPtr (Exc.notModified "Not Modified")).payload.isNotModified
      = true :=
  ⟨rfl, rfl, rfl⟩

/-- C3: `checkAborted()` fails with the Request Aborted condition exactly
when the transport has flagged client disconnection, and otherwise returns
normally with no effect. -/
theorem checkAborted_spec (flagged : Bool) :
    (flagged = true →
      ServerSink.checkAborted flagged =
        .error (.requestAborted "Request Aborted")) ∧
    (flagged = false → ServerSink.checkAborted flagged = .ok ()) := by
  constructor <;> intro h <;> simp [ServerSink.checkAborted, h]

/-- C3 witness: both branches at concrete flags. -/
theorem checkAborted_spec_witness :
    ServerSink.checkAborted true = .error (.requestAborted "Request Aborted") ∧
    ServerSink.checkAborted false = .ok () :=
  ⟨(checkAborted_spec true).1 rfl, (checkAborted_spec false).2 rfl⟩

/-- C4: after a terminal operation succeeds on an exchange, every further
terminal operation is rejected, and along any sequence of terminal
operations on a fresh sink at most one succeeds. -/
theorem terminal_once :
    (∀ (s : Exchange.ExchangeState) (op1 : Exchange.TermOp)
      (s' : Exchange.ExchangeState) (c : SinkBase.SinkCall),
      Exchange.applyTerminal s op1 = .ok (s', c) →
      ∀ op2 : Exchange.TermOp,
        Exchange.applyTerminal s' op2 =
          .error "terminal operation on committed exchange") ∧
    (∀ ops : List Exchange.TermOp,
      (Exchange.run Exchange.fresh ops).length ≤ 1) := by
  constructor
  · intro s op1 s' c h op2
    unfold Exchange.applyTerminal at h
    by_cases hc : s.committed
    · simp [hc] at h
    · simp [hc] at h
      simp [Exchange.applyTerminal, ← h.1]
  · intro ops
    cases ops with
    | nil => simp [Exchange.run]
    | cons op ops =>
        simp [Exchange.run, Exchange.applyTerminal, Exchange.fresh,
          Exchange.run_committed_nil]

/-- C4 witness: a second terminal operation after a successful one is
rejected, at a concrete pair of operations. -/
theorem terminal_once_witness :
    Exchange.applyTerminal ⟨true⟩ (.seeOther "elsewhere") =
      .error "terminal operation on committed exchange" :=
  terminal_once.1 Exchange.fresh (.seeOther "u") ⟨true⟩
    (.seeOther_impl "u") rfl (.seeOther "elsewhere")

/-- C5: `content(string, stat)` invokes `content_impl` with the string's
bytes, `size()` byte count and `needCopy = true`; `content(vector, stat)`
invokes it with the vector's bytes, `size() * sizeof(T)` bytes and
`needCopy = true`; `content(data, size, stat, needCopy)` forwards all four
arguments unchanged. -/
theorem content_overloads (s : SinkBase.CppString) (sizeofT : Nat)
    (v : SinkBase.CppVector) (d : Ptr) (sz : Nat) (stat : SinkBase.FileInfo)
    (nc : Bool) :
    SinkBase.contentString s stat = .content_impl s.dataPtr s.size stat true ∧
    SinkBase.contentVector sizeofT v stat =
      .content_impl v.dataPtr (v.size * sizeofT) stat true ∧
    SinkBase.contentRaw d sz stat nc = .content_impl d sz stat nc :=
  ⟨rfl, rfl, rfl⟩

/-- C6: the typed `error(e)` overload equals invoking the `exception_ptr`
overload on `make_exception_ptr(e)`, and both overloads invoke the single
type-erased `error_impl` primitive. -/
theorem error_overloads_single_primitive (e : Exc) (p : ExceptionPtr) :
    SinkBase.error e = SinkBase.errorPtr (makeExceptionPtr e) ∧
    SinkBase.error e = .error_impl (makeExceptionPtr e) ∧
    SinkBase.errorPtr p = .error_impl p :=
  ⟨rfl, rfl, rfl⟩

/-- C7: `seeOther(url)` invokes only the redirect primitive
`seeOther_impl` with that url and is never routed through `error_impl`. -/
theorem seeOther_not_error (url : String) :
    SinkBase.seeOther url = .seeOther_impl url ∧
    ∀ exc : ExceptionPtr, SinkBase.seeOther url ≠ .error_impl exc :=
  ⟨rfl, fun _ h => SinkBase.SinkCall.noConfusion h⟩

/-- C8: a default-constructed `FileInfo` has content type
`"application/octet-stream"`, `lastModified = -1` (the "now" sentinel)
and `expires = -1` (the "never" sentinel). -/
theorem fileInfo_defaults :
    SinkBase.FileInfo.ctorDefault.contentType = "application/octet-stream" ∧
    SinkBase.FileInfo.ctorDefault.lastModified = -1 ∧
    SinkBase.FileInfo.ctorDefault.expires = -1 :=
  ⟨rfl, rfl, rfl⟩

/-- C9: `hasContentLength()` returns exactly the boolean supplied at
construction, and `read` — the sole non-const operation of the public
interface — leaves it unchanged (the const operations `stat`, `name`,
`size` return values of other types and cannot modify the source). -/
theorem hasContentLength_fixed (σ : Type) (hcl : Bool) (st : σ)
    (statFn : σ → SinkBase.FileInfo) (readFn : σ → Nat → Nat → Nat × σ)
    (nameFn : σ → String) (sizeFn : σ → Int) (size off : Nat) :
    (DataSource.ctor σ hcl st statFn readFn nameFn sizeFn).hasContentLength
      = hcl ∧
    ∀ d : DataSource σ, (d.read size off).2.hasContentLength
      = d.hasContentLength :=
  ⟨rfl, fun _ => rfl⟩

/-- C10: a `DataSource` constructed without specifying the
`hasContentLength` argument has `hasContentLength() = true`. -/
theorem hasContentLength_default_true (σ : Type) (st : σ)
    (statFn : σ → SinkBase.FileInfo) (readFn : σ → Nat → Nat → Nat × σ)
    (nameFn : σ → String) (sizeFn : σ → Int) :
    (DataSource.ctorDefault σ st statFn readFn nameFn sizeFn).hasContentLength
      = true :=
  rfl

end Http
